import Mathlib

/-!
Shallow embedding of `src/main.rs` of the print-log-streams utility.

The program fetches the log streams of one CloudWatch Logs group, counts how
many were updated in the last 30 / 7 / 1 days, and optionally publishes the
three counts as CloudWatch metrics.

Modelling conventions:
* `chrono::DateTime<Utc>` instants are modelled as `Int` nanoseconds since the
  Unix epoch (chrono stores whole seconds plus a sub-second nanosecond part;
  total nanoseconds preserve its ordering and its `Duration` arithmetic, which
  is modelled exactly).
* Rust `i64` values (millisecond timestamps, day counts) are modelled as
  unbounded `Int`; `i64` division by 1000 truncates toward zero and cannot
  overflow, so it is `Int.tdiv · 1000`.
* A Rust panic is modelled by `Option`: `count_active_streams` returns
  `none` exactly when the source would panic, at any of its three panic
  sites — the `.unwrap()` on `Utc.timestamp_opt`, the bounds check inside
  `chrono::Duration::days`, and the range check inside the
  `DateTime<Utc> - TimeDelta` subtraction.
* The AWS service clients are external collaborators and appear as function
  parameters; their opaque error types appear as `String`.
-/

/-- A log stream record. The program consumes `last_event_timestamp`
(milliseconds since the Unix epoch, absent when the stream never received an
event); `log_stream_name` is carried for completeness. -/
structure LogStream where
  log_stream_name : Option String
  last_event_timestamp : Option Int
deriving Repr, DecidableEq

/-- Nanoseconds per second. -/
def nsPerSec : Int := 1000000000

/-- Seconds per day; `chrono::Duration::days d` is exactly `d * 86400` seconds
(no calendar arithmetic). -/
def secondsPerDay : Int := 86400

/-- Least timestamp (in seconds) accepted by chrono `Utc.timestamp_opt`:
the timestamp of `NaiveDate::MIN` (January 1 of year -262143) at midnight. -/
def chronoMinSec : Int := -8334601228800

/-- Greatest timestamp (in seconds) accepted by chrono `Utc.timestamp_opt`:
the timestamp of `NaiveDate::MAX` (December 31 of year 262142) at 23:59:59. -/
def chronoMaxSec : Int := 8210266876799

/-- Model of `Utc.timestamp_opt secs 0`: the instant `secs` whole seconds
after the epoch (as nanoseconds), or `none` when `secs` lies outside chrono's
representable range (in which case the source's `.unwrap()` panics). -/
def timestamp_opt (secs : Int) : Option Int :=
  if chronoMinSec ≤ secs ∧ secs ≤ chronoMaxSec then some (secs * nsPerSec)
  else none

/-- The nanosecond value of a `duration`-day time delta (`duration * 86400`
seconds); chrono's `Duration::days` only produces it inside its bounds —
`duration_days` below is the checked model. -/
def durationDays (duration : Int) : Int := duration * secondsPerDay * nsPerSec

/-- Greatest day count accepted by `chrono::Duration::days`: a `TimeDelta`
holds at most `i64::MAX` milliseconds, i.e. 9223372036854775 whole seconds,
and 9223372036854775 / 86400 = 106751991167 days; the range is symmetric
(`TimeDelta::MIN = -TimeDelta::MAX`). -/
def maxDurationDays : Int := 106751991167

/-- Model of `chrono::Duration::days duration`: the delta in nanoseconds, or
`none` when `duration` lies outside the `TimeDelta` bounds, where the source
panics. -/
def duration_days (duration : Int) : Option Int :=
  if -maxDurationDays ≤ duration ∧ duration ≤ maxDurationDays
  then some (durationDays duration) else none

/-- Model of `DateTime<Utc> - TimeDelta` (chrono `checked_sub_signed` plus the
`Sub` impl's `expect`): the nanosecond difference, or `none` when the result
leaves the `DateTime` range `MIN_UTC ..= MAX_UTC`, where the source panics
(`MAX_UTC` carries 999999999 sub-second nanoseconds). -/
def checked_sub_duration (now dur : Int) : Option Int :=
  if chronoMinSec * nsPerSec ≤ now - dur ∧
      now - dur ≤ chronoMaxSec * nsPerSec + 999999999
  then some (now - dur) else none

/-- The cutoff instant `current_datetime - Duration::days duration` as the
source computes it, `none` when either step panics. -/
def cutoff (current_datetime duration : Int) : Option Int :=
  (duration_days duration).bind
    (fun dur => checked_sub_duration current_datetime dur)

/-- Embedding of `count_active_streams` (src/main.rs lines 64-82): scan the
stream list; a stream with no `last_event_timestamp` is skipped; otherwise the
loop body runs: the millisecond timestamp is truncated to seconds with Rust
`i64` division (truncation toward zero) and converted with `Utc.timestamp_opt`
(whose `.unwrap()` panics outside chrono's range), then the cutoff
`current_datetime - Duration::days duration` is computed (`Duration::days`
panics outside the `TimeDelta` bounds, the subtraction panics when it leaves
the `DateTime` range), and the stream is counted when its instant is strictly
later than the cutoff. Every panic is the `none` outcome. -/
def count_active_streams : List LogStream → Int → Int → Option Nat
  | [], _, _ => some 0
  | stream :: rest, current_datetime, duration =>
    match stream.last_event_timestamp with
    | none => count_active_streams rest current_datetime duration
    | some last_event_timestamp =>
      match timestamp_opt (Int.tdiv last_event_timestamp 1000) with
      | none => none
      | some last_event_datetime =>
        match duration_days duration with
        | none => none
        | some dur =>
          match checked_sub_duration current_datetime dur with
          | none => none
          | some cutoff_datetime =>
            match count_active_streams rest current_datetime duration with
            | none => none
            | some count =>
              some (if cutoff_datetime < last_event_datetime
                    then count + 1 else count)

/-- The per-stream activity predicate as the spec words it: the stream carries
a last-event timestamp and its instant, after truncating the millisecond
timestamp to whole seconds (discarding the millisecond remainder), is strictly
later than `now - D days`; a stream with no last-event timestamp is never
active. -/
def spec_active (current_datetime duration : Int) (stream : LogStream) : Bool :=
  match stream.last_event_timestamp with
  | none => false
  | some ts =>
    decide (current_datetime - durationDays duration < Int.tdiv ts 1000 * nsPerSec)

/-- A stream whose (absent or) present timestamp, truncated to seconds, is
representable by `Utc.timestamp_opt`; exactly the streams that cannot make the
source's `.unwrap()` panic. -/
def streamOk (stream : LogStream) : Bool :=
  match stream.last_event_timestamp with
  | none => true
  | some ts => (timestamp_opt (Int.tdiv ts 1000)).isSome

/-- Whether a stream carries a last-event timestamp: exactly the streams on
which the source's loop body (and so any of its panics) runs. -/
def has_last_event (stream : LogStream) : Bool :=
  stream.last_event_timestamp.isSome

theorem timestamp_opt_some {secs t : Int} (h : timestamp_opt secs = some t) :
    t = secs * nsPerSec := by
  unfold timestamp_opt at h
  split at h
  · exact (Option.some.inj h).symm
  · exact absurd h (by simp)

theorem timestamp_opt_isSome {secs : Int}
    (h : (timestamp_opt secs).isSome = true) :
    chronoMinSec ≤ secs ∧ secs ≤ chronoMaxSec := by
  unfold timestamp_opt at h
  split at h
  · assumption
  · simp at h

theorem duration_days_some {d dur : Int} (h : duration_days d = some dur) :
    dur = durationDays d := by
  unfold duration_days at h
  split at h
  · exact (Option.some.inj h).symm
  · exact absurd h (by simp)

theorem checked_sub_duration_some {now dur co : Int}
    (h : checked_sub_duration now dur = some co) : co = now - dur := by
  unfold checked_sub_duration at h
  split at h
  · exact (Option.some.inj h).symm
  · exact absurd h (by simp)

/-- Characterisation of the classifier: it returns the spec's count when every
present timestamp is representable and — except when no stream carries a
timestamp, so the loop body never runs — the cutoff computation does not
panic; otherwise it panics (returns `none`). -/
theorem count_active_streams_spec (streams : List LogStream) (now d : Int) :
    count_active_streams streams now d =
      if streams.all streamOk &&
          (streams.all (fun s => ! has_last_event s) || (cutoff now d).isSome)
      then some (List.countP (spec_active now d) streams)
      else none := by
  induction streams with
  | nil => simp [count_active_streams]
  | cons s rest ih =>
    cases hts : s.last_event_timestamp with
    | none =>
      have hok : streamOk s = true := by simp [streamOk, hts]
      have hne : has_last_event s = false := by simp [has_last_event, hts]
      have hact : spec_active now d s = false := by simp [spec_active, hts]
      simp [count_active_streams, hts, ih, List.all_cons, hok, hne,
        List.countP_cons, hact]
    | some ts =>
      have hne : has_last_event s = true := by simp [has_last_event, hts]
      cases hto : timestamp_opt (Int.tdiv ts 1000) with
      | none =>
        have hok : streamOk s = false := by simp [streamOk, hts, hto]
        simp [count_active_streams, hts, hto, List.all_cons, hok]
      | some t =>
        have hok : streamOk s = true := by simp [streamOk, hts, hto]
        have ht : t = Int.tdiv ts 1000 * nsPerSec := timestamp_opt_some hto
        cases hdd : duration_days d with
        | none =>
          have hcut : cutoff now d = none := by simp [cutoff, hdd]
          simp [count_active_streams, hts, hto, hdd, List.all_cons, hne, hcut]
        | some dur =>
          cases hcs : checked_sub_duration now dur with
          | none =>
            have hcut : cutoff now d = none := by simp [cutoff, hdd, hcs]
            simp [count_active_streams, hts, hto, hdd, hcs, List.all_cons,
              hne, hcut]
          | some co =>
            have hcut : cutoff now d = some co := by simp [cutoff, hdd, hcs]
            have hdv : dur = durationDays d := duration_days_some hdd
            have hco : co = now - dur := checked_sub_duration_some hcs
            have hact : spec_active now d s = decide (co < t) := by
              rw [hco, hdv, ht]
              simp [spec_active, hts]
            by_cases hall : rest.all streamOk = true
            · have hrest : count_active_streams rest now d =
                  some (List.countP (spec_active now d) rest) := by
                rw [ih]
                simp [hall, hcut]
              simp [count_active_streams, hts, hto, hdd, hcs, hrest,
                List.all_cons, hok, hne, hcut, hall, hact, List.countP_cons]
              by_cases hlt : co < t
              · simp [hlt]
              · simp [hlt]
            · have hallb : rest.all streamOk = false := by
                cases hh : rest.all streamOk
                · rfl
                · exact absurd hh hall
              have hrest : count_active_streams rest now d = none := by
                rw [ih]
                simp [hallb]
              simp [count_active_streams, hts, hto, hdd, hcs, hrest,
                List.all_cons, hallb]

/-- Claim C1: for every stream list, reference instant and non-negative
whole-day window on which the source panics nowhere — every present timestamp
is representable and the cutoff `now - D days` is computable — the classifier
returns exactly the number of streams that carry a last-event timestamp whose
truncated instant is strictly later than `now - D days`, and every stream with
no last-event timestamp is excluded. -/
theorem count_active_streams_correct (streams : List LogStream) (now d : Int)
    (_hd : 0 ≤ d) (h : streams.all streamOk = true)
    (hc : (cutoff now d).isSome = true) :
    count_active_streams streams now d =
      some (List.countP (spec_active now d) streams) ∧
    ∀ s : LogStream, s.last_event_timestamp = none → spec_active now d s = false := by
  refine ⟨?_, ?_⟩
  · rw [count_active_streams_spec]
    simp [h, hc]
  · intro s hs
    simp [spec_active, hs]

theorem count_active_streams_correct_witness :
    (0:Int) ≤ 1 ∧
    ([⟨some "a", some 172800000⟩, ⟨some "b", none⟩] : List LogStream).all streamOk = true ∧
    (cutoff 172800000000000 1).isSome = true ∧
    count_active_streams [⟨some "a", some 172800000⟩, ⟨some "b", none⟩] 172800000000000 1 =
      some (List.countP (spec_active 172800000000000 1)
        [⟨some "a", some 172800000⟩, ⟨some "b", none⟩]) :=
  ⟨by decide, by decide, by decide,
    (count_active_streams_correct
      [⟨some "a", some 172800000⟩, ⟨some "b", none⟩] 172800000000000 1
      (by decide) (by decide) (by decide)).1⟩

/-- Claim C3 counterexample: representable timestamps are not sufficient to
rule out a panic, so the claim's first half fails. With one stream at
timestamp 0 (representable, `streamOk` holds) the source still panics for the
window 200000000000 — beyond the `Duration::days` bound of 106751991167 days —
and for the reference instant `MIN_UTC` with window 30, where the cutoff
subtraction leaves the `DateTime` range; on both inputs the classifier panics
(`none`) instead of returning a count. -/
theorem count_active_streams_panic_cex :
    streamOk ⟨some "s", some 0⟩ = true ∧
    count_active_streams [⟨some "s", some 0⟩] 0 200000000000 = none ∧
    count_active_streams [⟨some "s", some 0⟩] (chronoMinSec * nsPerSec) 30 =
      none := by
  refine ⟨by decide, by decide, by decide⟩

/-- Claim C3 as amended: the classifier returns without panicking whenever
every present millisecond timestamp, divided by 1000, is representable by
`Utc.timestamp_opt` and in addition the cutoff `now - D days` is computable —
the window is within the `Duration::days` bounds and the subtraction stays in
the `DateTime` range; outside the timestamp precondition the `.unwrap()` is
reachable: at the `i64::MAX` timestamp the classifier panics (`none`) instead
of returning a count. -/
theorem count_active_streams_panic_boundary :
    (∀ (streams : List LogStream) (now d : Int), streams.all streamOk = true →
        (cutoff now d).isSome = true →
        (count_active_streams streams now d).isSome = true) ∧
    count_active_streams [⟨some "s", some 9223372036854775807⟩] 0 1 = none := by
  constructor
  · intro streams now d h hc
    rw [count_active_streams_spec]
    simp [h, hc]
  · decide

theorem count_active_streams_panic_boundary_witness :
    (count_active_streams [⟨some "w", some 86400000⟩] 0 30).isSome = true :=
  count_active_streams_panic_boundary.1 [⟨some "w", some 86400000⟩] 0 30
    (by decide) (by decide)

/-- Claim C4: the time comparison is strict: a stream whose truncated
last-event instant equals the cutoff `now - D days` exactly — with the window
inside the `Duration::days` bounds, so the cutoff is computed (the subtraction
itself cannot panic, the cutoff being a representable instant) — is not
counted: prepending it to any stream list leaves the classifier's result
unchanged. -/
theorem count_active_streams_strict_cutoff (streams : List LogStream)
    (s : LogStream) (now d ts : Int)
    (hts : s.last_event_timestamp = some ts)
    (hok : streamOk s = true)
    (hdur : (duration_days d).isSome = true)
    (hcut : Int.tdiv ts 1000 * nsPerSec = now - durationDays d) :
    count_active_streams (s :: streams) now d =
      count_active_streams streams now d := by
  unfold streamOk at hok
  rw [hts] at hok
  have hbounds := timestamp_opt_isSome hok
  obtain ⟨t, hh⟩ := Option.isSome_iff_exists.mp hok
  have ht := timestamp_opt_some hh
  subst ht
  obtain ⟨dur, hdd⟩ := Option.isSome_iff_exists.mp hdur
  have hdv := duration_days_some hdd
  subst hdv
  have hcs : checked_sub_duration now (durationDays d) =
      some (Int.tdiv ts 1000 * nsPerSec) := by
    have he : now - durationDays d = Int.tdiv ts 1000 * nsPerSec := hcut.symm
    unfold checked_sub_duration
    rw [he, if_pos]
    constructor
    · apply mul_le_mul_of_nonneg_right hbounds.1
      norm_num [nsPerSec]
    · have h2 : Int.tdiv ts 1000 * nsPerSec ≤ chronoMaxSec * nsPerSec := by
        apply mul_le_mul_of_nonneg_right hbounds.2
        norm_num [nsPerSec]
      linarith
  simp only [count_active_streams, hts, hh, hdd, hcs]
  cases hc : count_active_streams streams now d with
  | none => rfl
  | some c =>
    have hnlt : ¬ (Int.tdiv ts 1000 * nsPerSec < Int.tdiv ts 1000 * nsPerSec) :=
      lt_irrefl _
    simp [hnlt]

theorem count_active_streams_strict_cutoff_witness :
    ((⟨some "x", some 86400000⟩ : LogStream).last_event_timestamp = some 86400000) ∧
    streamOk ⟨some "x", some 86400000⟩ = true ∧
    (duration_days 1).isSome = true ∧
    Int.tdiv 86400000 1000 * nsPerSec = 172800000000000 - durationDays 1 ∧
    count_active_streams [⟨some "x", some 86400000⟩] 172800000000000 1 =
      count_active_streams [] 172800000000000 1 :=
  ⟨rfl, by decide, by decide, by decide,
    count_active_streams_strict_cutoff [] ⟨some "x", some 86400000⟩
      172800000000000 1 86400000 rfl (by decide) (by decide) (by decide)⟩

/-- Claim C5: for a fixed stream list and reference instant, the counts are
monotone in the window: whenever both windows return, `D1 < D2` implies
`count D1 ≤ count D2` — the 1/7/30-day buckets are nested, not a partition. -/
theorem count_active_streams_monotone (streams : List LogStream) (now d1 d2 : Int)
    (c1 c2 : Nat) (hd : d1 < d2)
    (h1 : count_active_streams streams now d1 = some c1)
    (h2 : count_active_streams streams now d2 = some c2) :
    c1 ≤ c2 := by
  rw [count_active_streams_spec] at h1 h2
  by_cases hA : (streams.all streamOk &&
      (streams.all (fun s => ! has_last_event s) || (cutoff now d1).isSome)) = true
  · rw [if_pos hA] at h1
    by_cases hB : (streams.all streamOk &&
        (streams.all (fun s => ! has_last_event s) || (cutoff now d2).isSome)) = true
    · rw [if_pos hB] at h2
      have e1 := Option.some.inj h1
      have e2 := Option.some.inj h2
      rw [← e1, ← e2]
      apply List.countP_mono_left
      intro x _hx hpx
      unfold spec_active at hpx ⊢
      cases hts : x.last_event_timestamp with
      | none =>
        rw [hts] at hpx
        simp at hpx
      | some ts =>
        rw [hts] at hpx
        simp only [decide_eq_true_eq] at hpx ⊢
        have hdur : durationDays d1 ≤ durationDays d2 := by
          unfold durationDays
          apply mul_le_mul_of_nonneg_right
          · apply mul_le_mul_of_nonneg_right hd.le
            norm_num [secondsPerDay]
          · norm_num [nsPerSec]
        linarith
    · rw [if_neg hB] at h2
      exact absurd h2 (by simp)
  · rw [if_neg hA] at h1
    exact absurd h1 (by simp)

theorem count_active_streams_monotone_witness :
    (1:Int) < 7 ∧
    count_active_streams [⟨some "m", some 172800000⟩] 345600000000000 1 = some 0 ∧
    count_active_streams [⟨some "m", some 172800000⟩] 345600000000000 7 = some 1 ∧
    (0:Nat) ≤ 1 :=
  ⟨by decide, by decide, by decide,
    count_active_streams_monotone [⟨some "m", some 172800000⟩] 345600000000000
      1 7 0 1 (by decide) (by decide) (by decide)⟩

theorem perm_all_eq {l1 l2 : List LogStream} (p : LogStream → Bool)
    (h : l1.Perm l2) : l1.all p = l2.all p := by
  cases hh : l2.all p with
  | true =>
    rw [List.all_eq_true] at hh ⊢
    intro x hx
    exact hh x (h.mem_iff.mp hx)
  | false =>
    cases hg : l1.all p with
    | false => rfl
    | true =>
      rw [List.all_eq_true] at hg
      have h2 : l2.all p = true := by
        rw [List.all_eq_true]
        intro x hx
        exact hg x (h.mem_iff.mpr hx)
      rw [h2] at hh
      exact absurd hh (by simp)

/-- Claim C9: the classifier is order-independent: permuting the stream list
leaves its result (count, or panic) unchanged for every reference instant and
window. -/
theorem count_active_streams_perm (streams1 streams2 : List LogStream)
    (now d : Int) (h : streams1.Perm streams2) :
    count_active_streams streams1 now d = count_active_streams streams2 now d := by
  rw [count_active_streams_spec, count_active_streams_spec,
    perm_all_eq streamOk h, perm_all_eq (fun s => ! has_last_event s) h,
    h.countP_eq]

theorem count_active_streams_perm_witness :
    ([⟨some "a", some 172800000⟩, ⟨some "b", none⟩] : List LogStream).Perm
      [⟨some "b", none⟩, ⟨some "a", some 172800000⟩] ∧
    count_active_streams [⟨some "a", some 172800000⟩, ⟨some "b", none⟩]
        345600000000000 7 =
      count_active_streams [⟨some "b", none⟩, ⟨some "a", some 172800000⟩]
        345600000000000 7 :=
  ⟨List.Perm.swap (⟨some "b", none⟩ : LogStream) (⟨some "a", some 172800000⟩ : LogStream) [],
    count_active_streams_perm
      [⟨some "a", some 172800000⟩, ⟨some "b", none⟩]
      [⟨some "b", none⟩, ⟨some "a", some 172800000⟩] 345600000000000 7
      (List.Perm.swap (⟨some "b", none⟩ : LogStream) (⟨some "a", some 172800000⟩ : LogStream) [])⟩

/-- Claim C10: the classifier is deterministic: two invocations on the same
frozen input (same stream list, same reference instant, same window) yield
identical results. -/
theorem count_active_streams_deterministic (streams : List LogStream)
    (now d : Int) :
    count_active_streams streams now d = count_active_streams streams now d := rfl

/-- AWS `StandardUnit`; only the `Count` variant is used by the program. -/
inductive StandardUnit where
  | Count
deriving Repr, DecidableEq

/-- A CloudWatch metric dimension, built with `set_name`/`set_value`. -/
structure Dimension where
  name : Option String
  value : Option String
deriving Repr, DecidableEq

/-- A CloudWatch `MetricDatum` as the program builds it. The source stores the
count as `count as f64`; that `u64 → f64` cast is modelled by the exact `Nat`
it is cast from (the cast is exact for every count below 2^53, and the count
is bounded by the stream-list length). -/
structure MetricDatum where
  metric_name : Option String
  timestamp : Option Int
  unit : Option StandardUnit
  value : Option Nat
  dimensions : Option (List Dimension)
deriving Repr, DecidableEq

/-- The program's error enum: one variant per collaborator, wrapping the
collaborator's opaque error (modelled as `String`). -/
inductive AWSError where
  | CloudWatchLogsError (e : String)
  | CloudWatchError (e : String)
deriving Repr, DecidableEq

/-- One observed call to the Metrics Ingestion Service
(`put_metric_data`): the namespace it was set to and the metric data sent. -/
structure MetricsCall where
  sentNamespace : String
  sentData : List MetricDatum
deriving Repr, DecidableEq

/-- The three metric data points built in `main` (src/main.rs lines 145-171):
fixed names, the shared run timestamp, unit `Count`, the corresponding count
as value, and the single `LogGroupName` dimension. -/
def metric_data (group : String) (timestamp : Int)
    (count_1month count_1week count_1day : Nat) : List MetricDatum :=
  let dimention : Dimension := ⟨some "LogGroupName", some group⟩
  [⟨some "MonthlyActiveStreams", some timestamp, some StandardUnit.Count,
      some count_1month, some [dimention]⟩,
   ⟨some "WeeklyActiveStreams", some timestamp, some StandardUnit.Count,
      some count_1week, some [dimention]⟩,
   ⟨some "DailyActiveStreams", some timestamp, some StandardUnit.Count,
      some count_1day, some [dimention]⟩]

/-- Embedding of the `if let Some(namespace) = namespace` block of `main`
(src/main.rs lines 142-180): when a namespace is present, build the three data
points, submit them in one `put_metric_data` call and propagate its failure;
when absent, do nothing. The result records the list of calls made to the
Metrics Ingestion Service together with `main`'s outcome. -/
def emit_metrics_phase (nameSpace : Option String) (group : String)
    (timestamp : Int) (count_1month count_1week count_1day : Nat)
    (put_metric_data : String → List MetricDatum → Except String Unit) :
    List MetricsCall × Except AWSError Unit :=
  match nameSpace with
  | none => ([], Except.ok ())
  | some ns =>
    let data := metric_data group timestamp count_1month count_1week count_1day
    match put_metric_data ns data with
    | Except.error e => ([⟨ns, data⟩], Except.error (AWSError.CloudWatchError e))
    | Except.ok _ => ([⟨ns, data⟩], Except.ok ())

/-- Outcome of one run of `main`: normal exit, a propagated `AWSError`, or a
panic (the classifier's `.unwrap()`). -/
inductive RunResult where
  | ok
  | err (e : AWSError)
  | panicked
deriving Repr, DecidableEq

/-- Embedding of `main` after configuration (src/main.rs lines 134-183): fetch
the streams (aborting on failure), classify with windows 30, 7 and 1 over the
same list and instant, then run the metric-emission phase. Returns the three
counts (when reached), the calls made to the Metrics Ingestion Service, and
the outcome. -/
def run (getStreamsResult : Except String (List LogStream))
    (current_datetime : Int) (group : String) (nameSpace : Option String)
    (put_metric_data : String → List MetricDatum → Except String Unit) :
    Option (Nat × Nat × Nat) × List MetricsCall × RunResult :=
  match getStreamsResult with
  | Except.error e => (none, [], RunResult.err (AWSError.CloudWatchLogsError e))
  | Except.ok streams =>
    match count_active_streams streams current_datetime 30,
          count_active_streams streams current_datetime 7,
          count_active_streams streams current_datetime 1 with
    | some count_1month, some count_1week, some count_1day =>
      let phase := emit_metrics_phase nameSpace group current_datetime
        count_1month count_1week count_1day put_metric_data
      (some (count_1month, count_1week, count_1day), phase.1,
        match phase.2 with
        | Except.ok _ => RunResult.ok
        | Except.error e => RunResult.err e)
    | _, _, _ => (none, [], RunResult.panicked)

/-- Claim C6: when the namespace flag is absent, no call to the Metrics
Ingestion Service occurs, whatever the stream-fetch result, reference instant,
group and service behaviour. -/
theorem no_namespace_no_metrics_call (getStreamsResult : Except String (List LogStream))
    (current_datetime : Int) (group : String)
    (put_metric_data : String → List MetricDatum → Except String Unit) :
    (run getStreamsResult current_datetime group none put_metric_data).2.1 = [] := by
  unfold run
  split
  · rfl
  · split
    · rfl
    · rfl

/-- Claim C7: on an empty stream list all three window counts are 0; with no
namespace no metrics call is made, and with a namespace the three zero-valued
data points are still submitted in one call. -/
theorem empty_streams_zero_counts (now : Int) (group ns : String)
    (put_metric_data : String → List MetricDatum → Except String Unit) :
    run (Except.ok []) now group none put_metric_data =
      (some (0, 0, 0), [], RunResult.ok) ∧
    (run (Except.ok []) now group (some ns) put_metric_data).1 = some (0, 0, 0) ∧
    (run (Except.ok []) now group (some ns) put_metric_data).2.1 =
      [⟨ns, [⟨some "MonthlyActiveStreams", some now, some StandardUnit.Count,
               some 0, some [⟨some "LogGroupName", some group⟩]⟩,
             ⟨some "WeeklyActiveStreams", some now, some StandardUnit.Count,
               some 0, some [⟨some "LogGroupName", some group⟩]⟩,
             ⟨some "DailyActiveStreams", some now, some StandardUnit.Count,
               some 0, some [⟨some "LogGroupName", some group⟩]⟩]⟩] := by
  refine ⟨rfl, ?_, ?_⟩ <;>
    cases h : put_metric_data ns (metric_data group now 0 0 0) <;>
      simp only [metric_data] at h <;>
      simp [run, emit_metrics_phase, count_active_streams, metric_data, h]

/-- Claim C8: with a namespace supplied, exactly one batched call is made to
the Metrics Ingestion Service, carrying exactly the three data points
"MonthlyActiveStreams" / "WeeklyActiveStreams" / "DailyActiveStreams" with
unit `Count`, the corresponding counts as values, the shared run timestamp and
the single `LogGroupName` dimension; a submission failure is propagated to the
caller as a `CloudWatchError` with no retry, and a success returns normally. -/
theorem namespace_metrics_submission (ns group : String) (timestamp : Int)
    (count_1month count_1week count_1day : Nat)
    (put_metric_data : String → List MetricDatum → Except String Unit) :
    (emit_metrics_phase (some ns) group timestamp count_1month count_1week
        count_1day put_metric_data).1 =
      [⟨ns, metric_data group timestamp count_1month count_1week count_1day⟩] ∧
    metric_data group timestamp count_1month count_1week count_1day =
      [⟨some "MonthlyActiveStreams", some timestamp, some StandardUnit.Count,
          some count_1month, some [⟨some "LogGroupName", some group⟩]⟩,
       ⟨some "WeeklyActiveStreams", some timestamp, some StandardUnit.Count,
          some count_1week, some [⟨some "LogGroupName", some group⟩]⟩,
       ⟨some "DailyActiveStreams", some timestamp, some StandardUnit.Count,
          some count_1day, some [⟨some "LogGroupName", some group⟩]⟩] ∧
    (∀ e, put_metric_data ns
        (metric_data group timestamp count_1month count_1week count_1day) =
          Except.error e →
      (emit_metrics_phase (some ns) group timestamp count_1month count_1week
          count_1day put_metric_data).2 =
        Except.error (AWSError.CloudWatchError e)) ∧
    (put_metric_data ns
        (metric_data group timestamp count_1month count_1week count_1day) =
          Except.ok () →
      (emit_metrics_phase (some ns) group timestamp count_1month count_1week
          count_1day put_metric_data).2 = Except.ok ()) := by
  refine ⟨?_, rfl, ?_, ?_⟩
  · cases h : put_metric_data ns
        (metric_data group timestamp count_1month count_1week count_1day) <;>
      simp [emit_metrics_phase, h]
  · intro e he
    simp [emit_metrics_phase, he]
  · intro he
    simp [emit_metrics_phase, he]

theorem namespace_metrics_submission_witness :
    (emit_metrics_phase (some "MyNamespace") "my-group" 7 1 2 3
        (fun _ _ => Except.ok ())).2 = Except.ok () ∧
    (emit_metrics_phase (some "MyNamespace") "my-group" 7 1 2 3
        (fun _ _ => Except.error "denied")).2 =
      Except.error (AWSError.CloudWatchError "denied") :=
  ⟨(namespace_metrics_submission "MyNamespace" "my-group" 7 1 2 3
      (fun _ _ => Except.ok ())).2.2.2 rfl,
   (namespace_metrics_submission "MyNamespace" "my-group" 7 1 2 3
      (fun _ _ => Except.error "denied")).2.2.1 "denied" rfl⟩

/-- One `DescribeLogStreams` response page: the page's streams and the
pagination token for the next page, absent on the last page. -/
structure DescribeLogStreamsResponse where
  log_streams : List LogStream
  next_token : Option String
deriving Repr, DecidableEq

/-- Embedding of `get_streams` (src/main.rs lines 48-60): it issues a single
`describe_log_streams` request — only the log group name is set, no pagination
token, and there is no loop — takes that one response's stream list, and lets
any request failure propagate via `?`. The Log Query Service is modelled as a
function from (group name, optional pagination token) to a response. -/
def get_streams
    (client : String → Option String → Except String DescribeLogStreamsResponse)
    (log_group_name : String) : Except String (List LogStream) :=
  match client log_group_name none with
  | Except.error e => Except.error e
  | Except.ok resp => Except.ok resp.log_streams

/-- A service holding two pages of streams for any group. -/
def twoPageClient :
    String → Option String → Except String DescribeLogStreamsResponse :=
  fun _ token =>
    match token with
    | none => Except.ok ⟨[⟨some "stream-a", some 1000⟩], some "token-1"⟩
    | some _ => Except.ok ⟨[⟨some "stream-b", some 2000⟩], none⟩

/-- A service whose first page fetch fails while a later page would succeed. -/
def failingPageClient :
    String → Option String → Except String DescribeLogStreamsResponse :=
  fun _ token =>
    match token with
    | none => Except.error "throttled page"
    | some _ => Except.ok ⟨[⟨some "stream-b", some 2000⟩], none⟩

/-- Claim C2 counterexample: `get_streams` does not follow pagination and does
not tolerate page failures. Against a two-page service it returns only the
first page — `stream-b`, which the service advertises behind `next_token
"token-1"`, is missing from the result — and a single failing page aborts the
whole retrieval with an error instead of being skipped. -/
theorem get_streams_pagination_cex :
    get_streams twoPageClient "my-group" =
      Except.ok [⟨some "stream-a", some 1000⟩] ∧
    twoPageClient "my-group" (some "token-1") =
      Except.ok ⟨[⟨some "stream-b", some 2000⟩], none⟩ ∧
    (⟨some "stream-b", some 2000⟩ : LogStream) ∉
      ([⟨some "stream-a", some 1000⟩] : List LogStream) ∧
    get_streams failingPageClient "my-group" = Except.error "throttled page" := by
  refine ⟨rfl, rfl, ?_, rfl⟩
  decide

/-- Claim C2 as amended: `get_streams` issues exactly one request, with no
pagination token; it returns that single page's streams when the request
succeeds, and any failure of that request is fatal and propagated unchanged
to the caller (no page is skipped, no accumulation continues). -/
theorem get_streams_single_request
    (client : String → Option String → Except String DescribeLogStreamsResponse)
    (log_group_name : String) :
    (∀ resp, client log_group_name none = Except.ok resp →
      get_streams client log_group_name = Except.ok resp.log_streams) ∧
    (∀ e, client log_group_name none = Except.error e →
      get_streams client log_group_name = Except.error e) := by
  constructor
  · intro resp h
    simp [get_streams, h]
  · intro e h
    simp [get_streams, h]

theorem get_streams_single_request_witness :
    get_streams twoPageClient "my-group" =
      Except.ok (⟨[⟨some "stream-a", some 1000⟩], some "token-1"⟩ :
        DescribeLogStreamsResponse).log_streams ∧
    get_streams failingPageClient "my-group" = Except.error "throttled page" :=
  ⟨(get_streams_single_request twoPageClient "my-group").1
      ⟨[⟨some "stream-a", some 1000⟩], some "token-1"⟩ rfl,
   (get_streams_single_request failingPageClient "my-group").2
      "throttled page" rfl⟩
